import Mathlib

/-!
Verification of the instrumented transaction execution harness.

The development shallowly embeds two source files:
- `src/tracing/opcount.rs`: `OpcodeCountInspector`, the reference step-counter
  observation hook.
- `tests/it/utils.rs`: the `TestEvm` harness (`deploy` / `try_deploy` / `call`
  / `inspect`) and the free single-run executor `inspect`.

The concrete execution engine (`revm::Evm`, its `transact` method) and the
ledger commit primitive (`CacheDB::commit` from `revm-database`) are external
collaborators, out of scope of the repository; they are represented at their
boundary: the engine is a parameter (a function from the run inputs to an
engine-level result), and commit applies the returned delta set to the
in-memory ledger, per the spec's "commit whatever delta set the engine
returns" contract.  Machine integers (`usize`) are embedded as `Nat` with
explicit reduction modulo `2 ^ 64` where overflow matters.
-/

/-- Width of `usize` on the 64-bit targets the crate is built for. -/
def usizeW : Nat := 2 ^ 64

/-! ## Reference hook: `OpcodeCountInspector` (src/tracing/opcount.rs) -/

/-- An inspector that counts all opcodes.  Field `count` embeds the `usize`
opcode counter; values are kept below `usizeW`. -/
structure OpcodeCountInspector where
  count : Nat
deriving Repr, DecidableEq

/-- `Default` derive: counter starts at zero. -/
def OpcodeCountInspector.default : OpcodeCountInspector :=
  { count := 0 }

/-- `Inspector::step` for `OpcodeCountInspector`: `self.count += 1`.
Release-mode Rust `usize` addition wraps modulo `2 ^ 64`, hence the explicit
reduction. -/
def OpcodeCountInspector.step (i : OpcodeCountInspector) : OpcodeCountInspector :=
  { i with count := (i.count + 1) % usizeW }

/-- Running the hook over a trace of `n` step callbacks: the engine invokes
`step` once per executed instruction, in order. -/
def runSteps : Nat → OpcodeCountInspector → OpcodeCountInspector
  | 0, i => i
  | n + 1, i => runSteps n i.step

/-! ## Data model of the harness (tests/it/utils.rs and revm boundary types) -/

/-- `TransactTo`: transaction target, an explicit callee address or the
create-new-account marker. -/
inductive TransactTo where
  | call (address : Nat)
  | create
deriving Repr, DecidableEq

/-- Chain-level configuration (`CfgEnv`), the fields the harness touches. -/
structure CfgEnv where
  chain_id : Nat
  disable_nonce_check : Bool
deriving Repr, DecidableEq

/-- Block context (`BlockEnv`), the fields the harness touches. -/
structure BlockEnv where
  number : Nat
  gas_limit : Nat
deriving Repr, DecidableEq

/-- Transaction parameters (`TxEnv`), the fields the harness touches. -/
structure TxEnv where
  caller : Nat
  gas_limit : Nat
  gas_price : Nat
  transact_to : TransactTo
  value : Nat
  data : List Nat
deriving Repr, DecidableEq

/-- `Env<BlockEnv, TxEnv>`: the configuration composite owned by the harness
and threaded through every run. -/
structure Env where
  cfg : CfgEnv
  block : BlockEnv
  tx : TxEnv
deriving Repr, DecidableEq

/-- `SpecId`: the rule-set identifier selecting instruction semantics. -/
inductive SpecId where
  | shanghai
  | cancun
  | prague
deriving Repr, DecidableEq

/-- `Output`: the output payload of a successful run; a `create` output may
carry the created account's address. -/
inductive Output where
  | call (data : List Nat)
  | create (data : List Nat) (address : Option Nat)
deriving Repr, DecidableEq

/-- `Output::address`: the created address, when present. -/
def Output.address : Output → Option Nat
  | Output.call _ => none
  | Output.create _ a => a

/-- `ExecutionResult<HaltReason>`: the tagged outcome of one run. -/
inductive ExecutionResult where
  | success (gas_used : Nat) (logs : List Nat) (output : Output)
  | revert (gas_used : Nat) (output : List Nat)
  | halt (reason : Nat) (gas_used : Nat)
deriving Repr, DecidableEq

/-- The created address extracted from an outcome the way `try_deploy` does:
only a `success` outcome is inspected for its output's address. -/
def ExecutionResult.createdAddress : ExecutionResult → Option Nat
  | ExecutionResult.success _ _ output => output.address
  | _ => none

/-- The ledger (`CacheDB<EmptyDB>`): an in-memory mapping from account
identifier to account state, as an association list. -/
def Db : Type := List (Nat × Nat)
deriving Repr, DecidableEq

/-- One run's delta set (`EvmState`): accounts touched with their new state. -/
def Deltas : Type := List (Nat × Nat)
deriving Repr, DecidableEq

/-- Insert-or-replace one account entry in the ledger. -/
def dbInsert (db : Db) (kv : Nat × Nat) : Db :=
  match db with
  | [] => [kv]
  | e :: rest => if e.1 = kv.1 then kv :: rest else e :: dbInsert rest kv

/-- `DatabaseCommit::commit` at the boundary: apply the engine-returned delta
set to the owned ledger, entry by entry ("commit whatever delta set the
engine returns"). -/
def commitDb (db : Db) (state : Deltas) : Db :=
  state.foldl dbInsert db

/-- `ResultAndState<HaltReason>`: the outcome together with its not-yet-applied
delta set. -/
structure ResultAndState where
  result : ExecutionResult
  state : Deltas
deriving Repr, DecidableEq

/-- `EVMError<Infallible, InvalidTransaction>`: engine-level errors.  The
database error payload is `Infallible`, embedded as `Empty`. -/
inductive EVMError where
  | transaction (e : Nat)
  | header (e : Nat)
  | database (e : Empty)
  | custom (s : String)
deriving Repr, DecidableEq

/-- What one engine run produces: the outcome, the delta set, the (possibly
engine-mutated) configuration handed back by
`into_db_and_env_with_handler_cfg`, and the number of times the engine invoked
the attached hook's `step` callback (one per executed instruction). -/
structure EngineRun where
  result : ExecutionResult
  state : Deltas
  env : Env
  steps : Nat
deriving Repr, DecidableEq

/-- The external execution engine at its boundary (`revm::Evm::transact` after
`build`): a deterministic function of the ledger, configuration and rule-set
identifier.  It does not commit to the ledger it reads. -/
def Engine : Type := Db → Env → SpecId → Except EVMError EngineRun

/-! ## Single-run executor: the free `inspect` function -/

/-- Free function `inspect`: builds an engine instance over the given ledger,
configuration, rule-set id and hook, runs exactly one transaction, and returns
the outcome (with its delta set unapplied) together with the engine's final
configuration.  It commits nothing. -/
def inspect (eng : Engine) (db : Db) (env : Env) (s : SpecId) :
    Except EVMError (ResultAndState × Env) :=
  match eng db env s with
  | Except.error e => Except.error e
  | Except.ok run =>
      Except.ok ({ result := run.result, state := run.state }, run.env)

/-- Alias for the free executor, used inside `TestEvm` method bodies where the
method namespace would otherwise shadow the root-level name. -/
def inspectFree : Engine → Db → Env → SpecId → Except EVMError (ResultAndState × Env) :=
  inspect

/-! ## Harness state: `TestEvm` -/

/-- The harness: owns the ledger, the current configuration, and the active
rule-set identifier. -/
structure TestEvm where
  db : Db
  env : Env
  spec_id : SpecId
deriving Repr, DecidableEq

/-- `TestEvm::new`: empty cache ledger; block gas limit `U256::MAX`,
transaction gas limit `u64::MAX`, zero gas price; `SpecId::CANCUN`. -/
def TestEvm.new : TestEvm :=
  { db := [],
    env :=
      { cfg := { chain_id := 1, disable_nonce_check := false },
        block := { number := 0, gas_limit := 2 ^ 256 - 1 },
        tx :=
          { caller := 0, gas_limit := 2 ^ 64 - 1, gas_price := 0,
            transact_to := TransactTo.call 0, value := 0, data := [] } },
    spec_id := SpecId.cancun }

/-- `TestEvm::inspect`: delegates to the free executor with the harness's
current ledger, a clone of its configuration, and its rule-set id.  The method
takes `&mut self` only for the ledger borrow; it assigns no field, which the
state-passing embedding renders by returning the harness value alongside the
result. -/
def TestEvm.inspect (eng : Engine) (evm : TestEvm) :
    Except EVMError (ResultAndState × Env) × TestEvm :=
  (inspectFree eng evm.db evm.env evm.spec_id, evm)

/-- `TestEvm::call`: sets the transaction call-data and target on the stored
configuration, runs once via `inspect`, then commits the returned deltas and
replaces the stored configuration with the engine-returned one.  On an engine
error the `?` operator returns with the configuration mutation retained. -/
def TestEvm.call (eng : Engine) (evm : TestEvm) (address : Nat) (data : List Nat) :
    Except EVMError ExecutionResult × TestEvm :=
  let env1 : Env :=
    { evm.env with tx :=
      { evm.env.tx with data := data, transact_to := TransactTo.call address } }
  let evm1 : TestEvm := { evm with env := env1 }
  match TestEvm.inspect eng evm1 with
  | (Except.error e, evm2) => (Except.error e, evm2)
  | (Except.ok (rs, envR), evm2) =>
      (Except.ok rs.result,
        { evm2 with db := commitDb evm2.db rs.state, env := envR })

/-- `TestEvm::try_deploy`: like `call` but with the create-new-account marker
as target; after committing deltas and replacing the configuration, a
`success` outcome yields the created address from its output, any other
outcome yields `none` for the address (still `Ok`). -/
def TestEvm.try_deploy (eng : Engine) (evm : TestEvm) (data : List Nat) :
    Except EVMError (ExecutionResult × Option Nat) × TestEvm :=
  let env1 : Env :=
    { evm.env with tx :=
      { evm.env.tx with data := data, transact_to := TransactTo.create } }
  let evm1 : TestEvm := { evm with env := env1 }
  match TestEvm.inspect eng evm1 with
  | (Except.error e, evm2) => (Except.error e, evm2)
  | (Except.ok (rs, envR), evm2) =>
      let evm3 : TestEvm :=
        { evm2 with db := commitDb evm2.db rs.state, env := envR }
      match rs.result with
      | ExecutionResult.success g l output =>
          (Except.ok (ExecutionResult.success g l output, output.address), evm3)
      | r => (Except.ok (r, none), evm3)

/-- Result of `TestEvm::deploy`, which unwraps the optional address with
`expect`: a returned address, a propagated engine error, or a panic when the
outcome carried no created address. -/
inductive DeployOutcome where
  | ok (address : Nat)
  | engineErr (e : EVMError)
  | panicked (msg : String)
deriving Repr, DecidableEq

/-- `TestEvm::deploy`: `try_deploy` then
`address.expect("failed to deploy contract")`. -/
def TestEvm.deploy (eng : Engine) (evm : TestEvm) (data : List Nat) :
    DeployOutcome × TestEvm :=
  match TestEvm.try_deploy eng evm data with
  | (Except.error e, evm2) => (DeployOutcome.engineErr e, evm2)
  | (Except.ok (_, some a), evm2) => (DeployOutcome.ok a, evm2)
  | (Except.ok (_, none), evm2) =>
      (DeployOutcome.panicked "failed to deploy contract", evm2)

/-! ## Concrete engines used to witness the theorems -/

/-- An engine that always fails with a validation error. -/
def failEngine : Engine :=
  fun _ _ _ => Except.error (EVMError.transaction 0)

/-- An engine that always returns the given run record. -/
def constEngine (run : EngineRun) : Engine :=
  fun _ _ _ => Except.ok run

/-- A successful create run: address `7`, one delta, three steps. -/
def demoCreateRun : EngineRun :=
  { result := ExecutionResult.success 21000 [] (Output.create [1] (some 7)),
    state := [(7, 1)],
    env := TestEvm.new.env,
    steps := 3 }

/-- A reverted run: no created address, one gas-accounting delta. -/
def demoRevertRun : EngineRun :=
  { result := ExecutionResult.revert 100 [9],
    state := [(0, 5)],
    env := TestEvm.new.env,
    steps := 2 }

/-! ## Theorems -/

/-- The counter after `n` step callbacks from a counter below the `usize`
bound: addition modulo the machine width. -/
theorem runSteps_count (n : Nat) (i : OpcodeCountInspector) (h : i.count < usizeW) :
    (runSteps n i).count = (i.count + n) % usizeW := by
  induction n generalizing i with
  | zero => simpa [runSteps] using (Nat.mod_eq_of_lt h).symm
  | succ n ih =>
      have hw : 0 < usizeW := by norm_num [usizeW]
      have hs : (OpcodeCountInspector.step i).count < usizeW :=
        Nat.mod_lt _ hw
      calc (runSteps (n + 1) i).count
          = (runSteps n (OpcodeCountInspector.step i)).count := rfl
        _ = ((OpcodeCountInspector.step i).count + n) % usizeW := ih _ hs
        _ = ((i.count + 1) % usizeW + n) % usizeW := rfl
        _ = (i.count + 1 + n) % usizeW := Nat.mod_add_mod _ _ _
        _ = (i.count + (n + 1)) % usizeW := by ring_nf

/-- C1: a default-constructed step-counter hook starts at zero and, after the
engine invokes the step callback exactly `n` times (any representable `n`),
`count()` returns exactly `n`; each single step invocation increments the
counter by exactly one, with no branching on opcode identity. -/
theorem opcount_counts_all_steps (n : Nat) (i : OpcodeCountInspector)
    (h : n < usizeW) (hi : i.count + 1 < usizeW) :
    (runSteps n OpcodeCountInspector.default).count = n ∧
    (OpcodeCountInspector.step i).count = i.count + 1 := by
  constructor
  · have h0 : OpcodeCountInspector.default.count < usizeW := by
      norm_num [OpcodeCountInspector.default, usizeW]
    have := runSteps_count n OpcodeCountInspector.default h0
    simpa [OpcodeCountInspector.default, Nat.mod_eq_of_lt h] using this
  · show (i.count + 1) % usizeW = i.count + 1
    exact Nat.mod_eq_of_lt hi

/-- Witness for C1 at `n = 3` and a counter at `5`. -/
theorem opcount_counts_all_steps_w :
    (runSteps 3 OpcodeCountInspector.default).count = 3 ∧
    (OpcodeCountInspector.step (OpcodeCountInspector.mk 5)).count =
      (OpcodeCountInspector.mk 5).count + 1 :=
  opcount_counts_all_steps 3 (OpcodeCountInspector.mk 5)
    (by norm_num [usizeW]) (by norm_num [usizeW])

/-- C6 counterexample: with the counter at the maximum representable `usize`
value, the step callback wraps the counter to zero — it does not saturate at
the maximum. -/
theorem opcount_step_no_saturation :
    (OpcodeCountInspector.step (OpcodeCountInspector.mk (usizeW - 1))).count = 0 ∧
    (OpcodeCountInspector.step (OpcodeCountInspector.mk (usizeW - 1))).count ≠
      usizeW - 1 := by
  have h1 : (OpcodeCountInspector.step (OpcodeCountInspector.mk (usizeW - 1))).count = 0 := by
    show (usizeW - 1 + 1) % usizeW = 0
    rw [Nat.sub_add_cancel (by norm_num [usizeW] : 1 ≤ usizeW), Nat.mod_self]
  refine ⟨h1, ?_⟩
  rw [h1]
  norm_num [usizeW]

/-- C6 amended: the step callback is total (never aborts the run) and keeps
the counter in the `usize` range, but on overflow it wraps to zero (Rust
release-mode semantics) rather than saturating; below the maximum it
increments by one. -/
theorem opcount_step_wraps (i : OpcodeCountInspector) (h : i.count < usizeW) :
    (OpcodeCountInspector.step i).count < usizeW ∧
    (i.count = usizeW - 1 → (OpcodeCountInspector.step i).count = 0) ∧
    (i.count < usizeW - 1 → (OpcodeCountInspector.step i).count = i.count + 1) := by
  have hw : 0 < usizeW := by norm_num [usizeW]
  refine ⟨Nat.mod_lt _ hw, ?_, ?_⟩
  · intro hmax
    show (i.count + 1) % usizeW = 0
    rw [hmax, Nat.sub_add_cancel (by omega : 1 ≤ usizeW), Nat.mod_self]
  · intro hlt
    show (i.count + 1) % usizeW = i.count + 1
    exact Nat.mod_eq_of_lt (by omega)

/-- Witness for the amended C6 at a counter of `5`. -/
theorem opcount_step_wraps_w :
    (OpcodeCountInspector.step (OpcodeCountInspector.mk 5)).count < usizeW ∧
    ((OpcodeCountInspector.mk 5).count = usizeW - 1 →
      (OpcodeCountInspector.step (OpcodeCountInspector.mk 5)).count = 0) ∧
    ((OpcodeCountInspector.mk 5).count < usizeW - 1 →
      (OpcodeCountInspector.step (OpcodeCountInspector.mk 5)).count =
        (OpcodeCountInspector.mk 5).count + 1) :=
  opcount_step_wraps (OpcodeCountInspector.mk 5) (by norm_num [usizeW])

/-- C5: the single-run executor returns the engine's outcome with its delta
set unapplied, paired with the engine's final configuration; its result
carries no ledger, so committing is entirely the caller's responsibility. -/
theorem inspect_returns_outcome_and_env (eng : Engine) (db : Db) (env : Env)
    (s : SpecId) (run : EngineRun) (h : eng db env s = Except.ok run) :
    inspect eng db env s =
      Except.ok ({ result := run.result, state := run.state }, run.env) := by
  simp [inspect, h]

/-- Witness for C5 with a concrete always-succeeding engine. -/
theorem inspect_returns_outcome_and_env_w :
    inspect (constEngine demoCreateRun) [] TestEvm.new.env SpecId.cancun =
      Except.ok
        ({ result := demoCreateRun.result, state := demoCreateRun.state },
          demoCreateRun.env) :=
  inspect_returns_outcome_and_env (constEngine demoCreateRun) [] TestEvm.new.env
    SpecId.cancun demoCreateRun rfl

/-- C7: the harness's `inspect` delegates to the single-run executor with the
harness's current ledger, configuration and rule-set id, and mutates none of
the stored fields. -/
theorem harness_inspect_pure (eng : Engine) (evm : TestEvm) :
    (TestEvm.inspect eng evm).2.db = evm.db ∧
    (TestEvm.inspect eng evm).2.env = evm.env ∧
    (TestEvm.inspect eng evm).2.spec_id = evm.spec_id ∧
    (TestEvm.inspect eng evm).1 = inspect eng evm.db evm.env evm.spec_id :=
  ⟨rfl, rfl, rfl, rfl⟩

/-- C2: whenever the run completes without an engine error, both `call` and
`try_deploy` — for every outcome variant — commit the returned delta set into
the owned ledger and replace the stored configuration with exactly the
engine-returned configuration. -/
theorem commit_and_replace_on_ok (eng : Engine) (evm : TestEvm) (address : Nat)
    (data : List Nat) (rs1 rs2 : ResultAndState) (env1 env2 : Env)
    (h1 : inspect eng evm.db
        { evm.env with tx :=
          { evm.env.tx with data := data, transact_to := TransactTo.call address } }
        evm.spec_id = Except.ok (rs1, env1))
    (h2 : inspect eng evm.db
        { evm.env with tx :=
          { evm.env.tx with data := data, transact_to := TransactTo.create } }
        evm.spec_id = Except.ok (rs2, env2)) :
    TestEvm.call eng evm address data =
      (Except.ok rs1.result,
        { db := commitDb evm.db rs1.state, env := env1, spec_id := evm.spec_id }) ∧
    TestEvm.try_deploy eng evm data =
      (Except.ok (rs2.result, rs2.result.createdAddress),
        { db := commitDb evm.db rs2.state, env := env2, spec_id := evm.spec_id }) := by
  constructor
  · simp [TestEvm.call, TestEvm.inspect, inspectFree, h1]
  · simp only [TestEvm.try_deploy, TestEvm.inspect, inspectFree, h2]
    cases hres : rs2.result <;>
      simp [ExecutionResult.createdAddress, hres]

/-- Witness for C2: a successful create run committed through both `call` and
`try_deploy` on a fresh harness. -/
theorem commit_and_replace_on_ok_w :
    TestEvm.call (constEngine demoCreateRun) TestEvm.new 3 [9] =
      (Except.ok demoCreateRun.result,
        { db := commitDb TestEvm.new.db demoCreateRun.state,
          env := demoCreateRun.env, spec_id := TestEvm.new.spec_id }) ∧
    TestEvm.try_deploy (constEngine demoCreateRun) TestEvm.new [9] =
      (Except.ok (demoCreateRun.result, demoCreateRun.result.createdAddress),
        { db := commitDb TestEvm.new.db demoCreateRun.state,
          env := demoCreateRun.env, spec_id := TestEvm.new.spec_id }) :=
  commit_and_replace_on_ok (constEngine demoCreateRun) TestEvm.new 3 [9]
    { result := demoCreateRun.result, state := demoCreateRun.state }
    { result := demoCreateRun.result, state := demoCreateRun.state }
    demoCreateRun.env demoCreateRun.env rfl rfl

/-- C3: when `call` returns an engine error, the owned ledger is untouched —
the ledger after the failed call equals the ledger before it. -/
theorem call_error_ledger_untouched (eng : Engine) (evm : TestEvm) (address : Nat)
    (data : List Nat) (e : EVMError) (evm2 : TestEvm)
    (h : TestEvm.call eng evm address data = (Except.error e, evm2)) :
    evm2.db = evm.db := by
  cases hE : eng evm.db
      { evm.env with tx :=
        { evm.env.tx with data := data, transact_to := TransactTo.call address } }
      evm.spec_id with
  | error e1 =>
      simp only [TestEvm.call, TestEvm.inspect, inspectFree, inspect, hE,
        Prod.mk.injEq] at h
      rw [← h.2]
  | ok run =>
      simp [TestEvm.call, TestEvm.inspect, inspectFree, inspect, hE] at h

/-- Witness for C3: a failing engine leaves the fresh harness's ledger equal
to what it was. -/
theorem call_error_ledger_untouched_w :
    (TestEvm.call failEngine TestEvm.new 3 [9]).2.db = TestEvm.new.db :=
  call_error_ledger_untouched failEngine TestEvm.new 3 [9]
    (EVMError.transaction 0) (TestEvm.call failEngine TestEvm.new 3 [9]).2 rfl

/-- C9: when `call` or `try_deploy` returns an engine error, the stored
configuration has already been mutated: its transaction call-data and target
hold the invocation's arguments and are not restored on failure. -/
theorem error_keeps_tx_mutation (eng : Engine) (evm : TestEvm) (address : Nat)
    (data : List Nat) (e1 e2 : EVMError) (evmA evmB : TestEvm)
    (hA : TestEvm.call eng evm address data = (Except.error e1, evmA))
    (hB : TestEvm.try_deploy eng evm data = (Except.error e2, evmB)) :
    evmA.env.tx.data = data ∧
    evmA.env.tx.transact_to = TransactTo.call address ∧
    evmB.env.tx.data = data ∧
    evmB.env.tx.transact_to = TransactTo.create := by
  cases hE : eng evm.db
      { evm.env with tx :=
        { evm.env.tx with data := data, transact_to := TransactTo.call address } }
      evm.spec_id with
  | error e =>
      cases hF : eng evm.db
          { evm.env with tx :=
            { evm.env.tx with data := data, transact_to := TransactTo.create } }
          evm.spec_id with
      | error f =>
          simp only [TestEvm.call, TestEvm.inspect, inspectFree, inspect, hE,
            Prod.mk.injEq] at hA
          simp only [TestEvm.try_deploy, TestEvm.inspect, inspectFree, inspect, hF,
            Prod.mk.injEq] at hB
          rw [← hA.2, ← hB.2]
          exact ⟨rfl, rfl, rfl, rfl⟩
      | ok run =>
          simp only [TestEvm.try_deploy, TestEvm.inspect, inspectFree, inspect,
            hF] at hB
          split at hB <;> simp_all
  | ok run =>
      simp [TestEvm.call, TestEvm.inspect, inspectFree, inspect, hE] at hA

/-- Witness for C9 with a concrete failing engine on a fresh harness. -/
theorem error_keeps_tx_mutation_w :
    (TestEvm.call failEngine TestEvm.new 3 [9]).2.env.tx.data = [9] ∧
    (TestEvm.call failEngine TestEvm.new 3 [9]).2.env.tx.transact_to =
      TransactTo.call 3 ∧
    (TestEvm.try_deploy failEngine TestEvm.new [9]).2.env.tx.data = [9] ∧
    (TestEvm.try_deploy failEngine TestEvm.new [9]).2.env.tx.transact_to =
      TransactTo.create :=
  error_keeps_tx_mutation failEngine TestEvm.new 3 [9]
    (EVMError.transaction 0) (EVMError.transaction 0)
    (TestEvm.call failEngine TestEvm.new 3 [9]).2
    (TestEvm.try_deploy failEngine TestEvm.new [9]).2 rfl rfl

/-- C10: a run inside `try_deploy` completing with a revert or halt outcome
still returns `Ok` with `none` for the address, and still commits the deltas
and replaces the stored configuration. -/
theorem try_deploy_nonsuccess_commits (eng : Engine) (evm : TestEvm)
    (data : List Nat) (rs : ResultAndState) (envR : Env)
    (h : inspect eng evm.db
        { evm.env with tx :=
          { evm.env.tx with data := data, transact_to := TransactTo.create } }
        evm.spec_id = Except.ok (rs, envR))
    (hnr : (∃ g o, rs.result = ExecutionResult.revert g o) ∨
           (∃ r g, rs.result = ExecutionResult.halt r g)) :
    TestEvm.try_deploy eng evm data =
      (Except.ok (rs.result, none),
        { db := commitDb evm.db rs.state, env := envR,
          spec_id := evm.spec_id }) := by
  simp only [TestEvm.try_deploy, TestEvm.inspect, inspectFree, h]
  rcases hnr with ⟨g, o, hr⟩ | ⟨r, g, hr⟩ <;> simp [hr]

/-- Witness for C10: a concrete reverting run through `try_deploy`. -/
theorem try_deploy_nonsuccess_commits_w :
    TestEvm.try_deploy (constEngine demoRevertRun) TestEvm.new [9] =
      (Except.ok (demoRevertRun.result, none),
        { db := commitDb TestEvm.new.db demoRevertRun.state,
          env := demoRevertRun.env, spec_id := TestEvm.new.spec_id }) :=
  try_deploy_nonsuccess_commits (constEngine demoRevertRun) TestEvm.new [9]
    { result := demoRevertRun.result, state := demoRevertRun.state }
    demoRevertRun.env rfl (Or.inl ⟨100, [9], rfl⟩)

/-- C4: `deploy` targets the create-new-account marker; on a success outcome
carrying a created address it returns that address, otherwise the failure
surfaces to the caller (engine error propagated, or a panic on a missing
address) and is never silently defaulted. -/
theorem deploy_extracts_created_address (eng : Engine) (evm : TestEvm)
    (data : List Nat) (rs : ResultAndState) (envR : Env)
    (h : inspect eng evm.db
        { evm.env with tx :=
          { evm.env.tx with data := data, transact_to := TransactTo.create } }
        evm.spec_id = Except.ok (rs, envR)) :
    (TestEvm.deploy eng evm data).1 =
      match rs.result.createdAddress with
      | some a => DeployOutcome.ok a
      | none => DeployOutcome.panicked "failed to deploy contract" := by
  simp only [TestEvm.deploy, TestEvm.try_deploy, TestEvm.inspect, inspectFree, h]
  cases hres : rs.result with
  | success g l output =>
      cases houta : output.address <;>
        simp [ExecutionResult.createdAddress, hres, houta]
  | revert g o => simp [ExecutionResult.createdAddress, hres]
  | halt r g => simp [ExecutionResult.createdAddress, hres]

/-- Witness for C4: deploying through a successful create run returns the
created address `7`. -/
theorem deploy_extracts_created_address_w :
    (TestEvm.deploy (constEngine demoCreateRun) TestEvm.new [9]).1 =
      DeployOutcome.ok 7 :=
  deploy_extracts_created_address (constEngine demoCreateRun) TestEvm.new [9]
    { result := demoCreateRun.result, state := demoCreateRun.state }
    demoCreateRun.env rfl

/-- C8: two successive `inspect` calls on the same harness state see identical
engine runs — identical outcome contents and identical step-counter counts
computed by two fresh default hooks — because the first call mutates nothing. -/
theorem inspect_idempotent (eng : Engine) (evm : TestEvm) (r1 r2 : EngineRun)
    (h1 : eng evm.db evm.env evm.spec_id = Except.ok r1)
    (h2 : eng (TestEvm.inspect eng evm).2.db (TestEvm.inspect eng evm).2.env
        (TestEvm.inspect eng evm).2.spec_id = Except.ok r2) :
    r1 = r2 ∧
    (runSteps r1.steps OpcodeCountInspector.default).count =
      (runSteps r2.steps OpcodeCountInspector.default).count ∧
    (TestEvm.inspect eng ((TestEvm.inspect eng evm).2)).1 =
      (TestEvm.inspect eng evm).1 := by
  have hsame : (TestEvm.inspect eng evm).2 = evm := rfl
  rw [hsame] at h2
  have hr : r1 = r2 := Except.ok.inj (h1.symm.trans h2)
  exact ⟨hr, by rw [hr], by rw [hsame]⟩

/-- Witness for C8 with a concrete always-succeeding engine on a fresh
harness. -/
theorem inspect_idempotent_w :
    demoCreateRun = demoCreateRun ∧
    (runSteps demoCreateRun.steps OpcodeCountInspector.default).count =
      (runSteps demoCreateRun.steps OpcodeCountInspector.default).count ∧
    (TestEvm.inspect (constEngine demoCreateRun)
        ((TestEvm.inspect (constEngine demoCreateRun) TestEvm.new).2)).1 =
      (TestEvm.inspect (constEngine demoCreateRun) TestEvm.new).1 :=
  inspect_idempotent (constEngine demoCreateRun) TestEvm.new
    demoCreateRun demoCreateRun rfl rfl
